import Mathlib

/-!
Verification development for the `get_glorys` repository
(`get_glorys_forecast_physics_daily.py`, `get_glorys_forecast_biogeochem_monthly.py`,
`get_glorys_reanalysis_daily.py`).

The scripts are shallowly embedded below: Python `datetime` values become the
`DateTime` structure (naive civil timestamps), `timedelta(hours=24*x)` becomes
`addDays`, `dateutil.relativedelta(months=x)` becomes `addMonths`,
`calendar.monthrange(y, m)[1]` becomes `monthLen`, `strftime` patterns become
explicit string builders over zero-padded fields, the request dictionary
becomes the `DataRequestOptions` structure, the `motuclient` download call is
an abstract client returning one of three attempt outcomes (completed, raised
`socket.timeout`, raised any other exception), the filesystem is a set of
paths, and the per-run main loop becomes a state-passing fold over the window
list.  All definitions are written to be kernel-computable.
-/

/-- Civil (naive, proleptic-Gregorian) timestamp with second resolution,
modelling a Python `datetime.datetime` value. -/
structure DateTime where
  year : Nat
  month : Nat
  day : Nat
  hour : Nat
  minute : Nat
  second : Nat
deriving DecidableEq, Repr

/-- Gregorian leap-year test, as used by Python's `calendar` module. -/
def isLeap (y : Nat) : Bool :=
  (y % 4 == 0 && y % 100 != 0) || y % 400 == 0

/-- Number of days in month `m` of year `y`: the second component of Python's
`calendar.monthrange(y, m)` (used at line 210 of the monthly script), and the
month length the `datetime` module itself uses. -/
def monthLen (y m : Nat) : Nat :=
  if m = 2 then (if isLeap y then 29 else 28)
  else if m = 4 ∨ m = 6 ∨ m = 9 ∨ m = 11 then 30
  else 31

/-- Well-formedness of a `DateTime`: exactly the values representable by a
Python `datetime.datetime` (its constructor validates all fields; MINYEAR = 1). -/
def ValidDT (d : DateTime) : Prop :=
  1 ≤ d.year ∧ 1 ≤ d.month ∧ d.month ≤ 12 ∧ 1 ≤ d.day ∧ d.day ≤ monthLen d.year d.month ∧
    d.hour < 24 ∧ d.minute < 60 ∧ d.second < 60

instance (d : DateTime) : Decidable (ValidDT d) := by
  unfold ValidDT; infer_instance

/-- Successor calendar day, keeping the time of day.  Adding
`timedelta(hours=24)` to a naive Python `datetime` advances its date ordinal
by exactly one while leaving the time of day unchanged; `nextDay` is that
ordinal successor written on the civil representation. -/
def nextDay (d : DateTime) : DateTime :=
  if d.day < monthLen d.year d.month then
    { d with day := d.day + 1 }
  else if d.month < 12 then
    { d with month := d.month + 1, day := 1 }
  else
    { d with year := d.year + 1, month := 1, day := 1 }

/-- `addDays d n` models `d + timedelta(hours=24*n)` on naive datetimes. -/
def addDays (d : DateTime) : Nat → DateTime
  | 0 => d
  | n + 1 => addDays (nextDay d) n

/-- `addMonths d x` models `d + dateutil.relativedelta(months=x)` (used at
line 171 of the monthly script): the month index advances by `x` with carry
into the year, and the day is clamped to the length of the target month. -/
def addMonths (d : DateTime) (x : Nat) : DateTime :=
  let t := d.month - 1 + x
  let y := d.year + t / 12
  let m := t % 12 + 1
  { d with year := y, month := m, day := min d.day (monthLen y m) }

/-- Days in all years strictly before year `y` (proleptic Gregorian), as in
CPython's `datetime._days_before_year`. -/
def daysBeforeYear (y : Nat) : Nat :=
  (y - 1) * 365 + (y - 1) / 4 - (y - 1) / 100 + (y - 1) / 400

/-- Days in year `y` strictly before month `m`, as in CPython's
`datetime._days_before_month`. -/
def daysBeforeMonth (y : Nat) : Nat → Nat
  | 0 => 0
  | 1 => 0
  | m + 1 => daysBeforeMonth y m + monthLen y m

/-- Proleptic-Gregorian day ordinal (1-01-01 has ordinal 1), as in CPython's
`datetime.toordinal`. -/
def toOrdinal (d : DateTime) : Nat :=
  daysBeforeYear d.year + daysBeforeMonth d.year d.month + d.day

/-- Timestamp in seconds from the civil epoch; two naive datetimes are
`k` seconds apart exactly when their `toSeconds` differ by `k`. -/
def toSeconds (d : DateTime) : Nat :=
  toOrdinal d * 86400 + d.hour * 3600 + d.minute * 60 + d.second

/-- Left-pad a numeral to two digits, as `strftime` does for `%m`, `%d`,
`%H`, `%M`, `%S`. -/
def pad2 (n : Nat) : String :=
  if n < 10 then "0" ++ toString n else toString n

/-- Left-pad a numeral to four digits, as `strftime` does for `%Y`. -/
def pad4 (n : Nat) : String :=
  if n < 10 then "000" ++ toString n
  else if n < 100 then "00" ++ toString n
  else if n < 1000 then "0" ++ toString n
  else toString n

/-- The `strftime` pattern `'%Y-%m-%d'`. -/
def fmtYMD (d : DateTime) : String :=
  pad4 d.year ++ "-" ++ pad2 d.month ++ "-" ++ pad2 d.day

/-- The `strftime` pattern `'%H:%M:%S'`. -/
def fmtTime (d : DateTime) : String :=
  pad2 d.hour ++ ":" ++ pad2 d.minute ++ ":" ++ pad2 d.second

/-- Render a full timestamp `'%Y-%m-%d %H:%M:%S'`; used on the specification
side to state what the generated date strings denote. -/
def fmtDT (d : DateTime) : String :=
  fmtYMD d ++ " " ++ fmtTime d

/-- The per-window date label `strftime('%Y_%m_%d')` written to the daily
scripts' log and embedded in their output file names. -/
def fmt_label_daily (d : DateTime) : String :=
  pad4 d.year ++ "_" ++ pad2 d.month ++ "_" ++ pad2 d.day

/-- The per-window date label `strftime('%Y_%m')` of the monthly script. -/
def fmt_label_monthly (d : DateTime) : String :=
  pad4 d.year ++ "_" ++ pad2 d.month

/-- Daily window list (physics-daily script line 164, reanalysis line 161):
`dt_list = [base + timedelta(hours=24*x) for x in range(ndt)]`. -/
def dt_list_daily (base : DateTime) (ndt : Nat) : List DateTime :=
  (List.range ndt).map (fun x => addDays base x)

/-- Monthly window list (monthly script line 171):
`dt_list = [base + relativedelta(months = x) for x in range(ndt)]`. -/
def dt_list_monthly (base : DateTime) (ndt : Nat) : List DateTime :=
  (List.range ndt).map (fun x => addMonths base x)

/-- Daily window start string, `dt.strftime('%Y-%m-%d 00:00:00')`
(physics-daily line 220). -/
def dstr_min_daily (dt : DateTime) : String :=
  fmtYMD dt ++ " 00:00:00"

/-- Daily window end string, `dt.strftime('%Y-%m-%d 23:59:59')`
(physics-daily line 221). -/
def dstr_max_daily (dt : DateTime) : String :=
  fmtYMD dt ++ " 23:59:59"

/-- Monthly window start string, `dt.strftime('%Y-%m-01 00:00:00')`
(monthly script line 209): the day-of-month is the literal text `01`. -/
def dstr_min_monthly (dt : DateTime) : String :=
  pad4 dt.year ++ "-" ++ pad2 dt.month ++ "-01 00:00:00"

/-- `dd_str = str(calendar.monthrange(int(%Y), int(%m))[1])` (monthly script
line 210): the decimal rendering, without padding, of the month's day count. -/
def dd_str (dt : DateTime) : String :=
  toString (monthLen dt.year dt.month)

/-- Monthly window end string, `dt.strftime('%Y-%m-'+dd_str+' 23:59:59')`
(monthly script line 211). -/
def dstr_max_monthly (dt : DateTime) : String :=
  pad4 dt.year ++ "-" ++ pad2 dt.month ++ "-" ++ dd_str dt ++ " 23:59:59"

/-- Midnight of the calendar day of `d` (specification side: the instant a
daily window starts). -/
def dayStart (d : DateTime) : DateTime :=
  ⟨d.year, d.month, d.day, 0, 0, 0⟩

/-- Last second of the calendar day of `d` (specification side: the instant a
daily window ends). -/
def dayEnd (d : DateTime) : DateTime :=
  ⟨d.year, d.month, d.day, 23, 59, 59⟩

/-- First day of month `m` of year `y` at midnight (specification side). -/
def monthStart (y m : Nat) : DateTime :=
  ⟨y, m, 1, 0, 0, 0⟩

/-- Last day of month `m` of year `y` at 23:59:59, the day count taken from
the calendar's day-count-per-month function (specification side). -/
def monthEnd (y m : Nat) : DateTime :=
  ⟨y, m, monthLen y m, 23, 59, 59⟩

/-- The request-parameter record `data_request_options_dict_manual`
(physics-daily script lines 171-189).  The dictionary has these seventeen
fixed literal keys, so it is embedded as a structure.  The four bounding-box
coordinates and the two depths are Python floats, over which no claim
computes; the structure is polymorphic in their carrier `F`. -/
structure DataRequestOptions (F : Type) where
  service_id : String
  product_id : String
  date_min : String
  date_max : String
  longitude_min : F
  longitude_max : F
  latitude_min : F
  latitude_max : F
  depth_min : F
  depth_max : F
  «variable» : List String
  motu : String
  out_dir : String
  out_name : String
  auth_mode : String
  user : String
  pwd : String
deriving DecidableEq, Repr

/-- The template dictionary exactly as the physics-daily script builds it
(lines 171-189): placeholder `" "` for `product_id`, `date_min`, `date_max`
and `out_name`; the fixed service id, motu URL and auth mode; the run's
bounding box, depths, variable list, output directory and credentials. -/
def data_request_options_dict_manual {F : Type}
    (west east south north depMin depMax : F) (vl : List String)
    (outputDirectory username password : String) : DataRequestOptions F :=
  { service_id := "GLOBAL_ANALYSISFORECAST_PHY_001_024-TDS"
    product_id := " "
    date_min := " "
    date_max := " "
    longitude_min := west
    longitude_max := east
    latitude_min := south
    latitude_max := north
    depth_min := depMin
    depth_max := depMax
    «variable» := vl
    motu := "https://nrt.cmems-du.eu/motu-web/Motu"
    out_dir := outputDirectory
    out_name := " "
    auth_mode := "cas"
    user := username
    pwd := password }

/-- Product selection of the forecast-physics script (lines 191-198): the
`if var_list[0] == ... / elif ...` chain keyed on the first selected
variable.  No `else` branch exists, so an unrecognized first element leaves
the record untouched (its `product_id` keeps whatever it held, i.e. the
template placeholder `" "`). -/
def select_product {F : Type} (v0 : String) (d : DataRequestOptions F) :
    DataRequestOptions F :=
  if v0 = "so" then
    { d with product_id := "cmems_mod_glo_phy-so_anfc_0.083deg_P1D-m" }
  else if v0 = "thetao" then
    { d with product_id := "cmems_mod_glo_phy-thetao_anfc_0.083deg_P1D-m" }
  else if v0 = "uo" ∨ v0 = "vo" then
    { d with product_id := "cmems_mod_glo_phy-cur_anfc_0.083deg_P1D-m" }
  else if v0 = "zos" then
    { d with product_id := "cmems_mod_glo_phy_anfc_0.083deg_P1D-m" }
  else
    d

/-- A Python dict with string keys, as the mapping it denotes: `none` for an
absent key. -/
def Dict (α : Type) : Type := String → Option α

/-- Update of a Python dict: `d[k] = v`. -/
def Dict.insert {α : Type} (d : Dict α) (k : String) (v : α) : Dict α :=
  fun q => if q = k then some v else d q

/-- The `MotuOptions` adapter class (physics-daily lines 120-131).  Its
`__init__` stores the wrapped dict in the instance attribute `attrs` via
`object.__setattr__`, so `attrs` lives in the instance `__dict__`. -/
structure MotuOptions (α : Type) where
  attrs : Dict α

/-- Result of reading an attribute on a `MotuOptions` instance: a value
produced by the `__getattr__` fallback (`none` standing for Python's
`None`), the wrapped dict itself when normal lookup finds the instance
attribute `attrs`, or a class-hierarchy attribute (a bound method, the
class object, a descriptor's value, …) when normal lookup resolves the name
on the type before `__getattr__` is ever consulted. -/
inductive PyAttr (α : Type) where
  | val : Option α → PyAttr α
  | dictRef : Dict α → PyAttr α
  | classAttr : PyAttr α

/-- Python attribute read `o.k` on a `MotuOptions` instance.  `__getattr__`
runs only when normal attribute lookup fails, and normal lookup resolves
two kinds of names first: the instance `__dict__`, which for this class
always holds exactly the key `attrs` (planted by `__init__` through
`object.__setattr__`; the overridden `__setattr__` never writes the
instance `__dict__` again), and every attribute provided by the class
hierarchy — `__init__`, `__setattr__`, `__getattr__` defined by the class
itself at lines 121-131, plus everything inherited from `object`
(`__class__`, `__dict__`, `__eq__`, `__hash__`, `__repr__`, …), a
Python-version-dependent set over which the embedding is parameterized as
`classAttrs`.  Only for names in neither place does `__getattr__` run,
returning `attrs[k]`, or `None` when the key raises `KeyError`
(lines 127-131).  (For this class the instance `__dict__` and the
data-descriptor names on the type are disjoint, so the branch order below
is exact.) -/
def MotuOptions.readAttr {α : Type} (classAttrs : String → Bool)
    (o : MotuOptions α) (k : String) : PyAttr α :=
  if k = "attrs" then PyAttr.dictRef o.attrs
  else if classAttrs k then PyAttr.classAttr
  else PyAttr.val (o.attrs k)

/-- A concrete sample of the class-hierarchy attribute names of
`MotuOptions` (CPython): the three methods the class defines and a few of
the attributes every object inherits.  Any real `classAttrs` contains at
least these names. -/
def pyClassAttrsSample : String → Bool := fun k =>
  k == "__init__" || k == "__setattr__" || k == "__getattr__" ||
  k == "__class__" || k == "__dict__" || k == "__doc__" ||
  k == "__module__" || k == "__weakref__" || k == "__eq__" ||
  k == "__hash__" || k == "__repr__" || k == "__str__" || k == "__new__"

/-- Python attribute write `o.k = v` on a `MotuOptions` instance: the class's
`__setattr__` (lines 124-125) stores `v` under key `k` in the wrapped dict,
for every name `k`. -/
def MotuOptions.writeAttr {α : Type} (o : MotuOptions α) (k : String) (v : α) :
    MotuOptions α :=
  ⟨o.attrs.insert k v⟩

/-- Outcome of one `motuclient.motu_api.execute_request` call as the retry
loop observes it: the call completed, it raised `socket.timeout`, or it
raised any other exception (the two `except` arms at lines 144-147). -/
inductive AttemptOutcome where
  | ok : AttemptOutcome
  | timeoutRaised : AttemptOutcome
  | otherRaised : AttemptOutcome
deriving DecidableEq, Repr

/-- The `while (counter <= 10) and (got_file == False)` loop of
`get_extraction` (lines 137-152).  `client d counter` is the outcome of the
attempt made with the loop counter at `counter`; `calls` counts the client
invocations made so far (instrumentation: the claims speak about the number
of attempts).  The extra `fuel` argument only makes the recursion
structural: it starts at `10 = 11 - counter`, so it reaches `0` exactly when
`counter` reaches `11`, where the source's guard `counter <= 10` fails
anyway; the `fuel = 0` base case therefore never changes the semantics. -/
def extraction_loop {F : Type} (d : DataRequestOptions F)
    (client : DataRequestOptions F → Nat → AttemptOutcome) :
    Nat → Nat → Bool → Nat → Nat × Bool
  | 0, _, got_file, calls => (calls, got_file)
  | fuel + 1, counter, got_file, calls =>
    if counter ≤ 10 ∧ got_file = false then
      match client d counter with
      | AttemptOutcome.ok =>
          extraction_loop d client fuel (counter + 1) true (calls + 1)
      | AttemptOutcome.timeoutRaised =>
          extraction_loop d client fuel (counter + 1) got_file (calls + 1)
      | AttemptOutcome.otherRaised =>
          extraction_loop d client fuel (counter + 1) got_file (calls + 1)
    else (calls, got_file)

/-- `get_extraction(data_request_options_dict)` (physics-daily lines
135-157): run the retry loop from `counter = 1`, `got_file = False`, then
return `'success'` if `got_file` else `'fail'`.  The first component is the
number of attempts that occurred (ghost instrumentation; the Python function
returns only the string). -/
def get_extraction {F : Type} (d : DataRequestOptions F)
    (client : DataRequestOptions F → Nat → AttemptOutcome) : Nat × String :=
  let r := extraction_loop d client 10 1 false 0
  (r.1, if r.2 then "success" else "fail")

/-- A filesystem as the set of existing regular-file paths. -/
def FS : Type := String → Bool

/-- `os.remove(p)`. -/
def fsRemove (fs : FS) (p : String) : FS :=
  fun q => if q = p then false else fs q

/-- Creation of the file at `p` (the download client writing its output). -/
def fsCreate (fs : FS) (p : String) : FS :=
  fun q => if q = p then true else fs q

/-- Whether a POSIX path is absolute. -/
def isAbsolutePath (p : String) : Bool :=
  match p.data with
  | [] => false
  | c :: _ => c = '/'

/-- Path against which `os.path.isfile(p)` / `os.remove(p)` operate: a
relative `p` is resolved against the process's current working directory. -/
def resolve (cwd p : String) : String :=
  if isAbsolutePath p then p else cwd ++ p

/-- `force_overwrite = True` (physics-daily line 208, reanalysis line 196,
monthly line 206). -/
def force_overwrite : Bool := true

/-- The check-and-delete the main loop performs before each download
(physics-daily lines 227-230, reanalysis 207-210, monthly 216-219):
`if os.path.isfile(out_fn): if force_overwrite: os.remove(out_fn)`.  Both
the existence test and the removal receive the bare file name `out_fn`, so
both are resolved against the process's current working directory `cwd`,
not against the configured output directory. -/
def overwrite_step (cwd : String) (fs : FS) (out_fn : String) : FS :=
  if fs (resolve cwd out_fn) then
    (if force_overwrite then fsRemove fs (resolve cwd out_fn) else fs)
  else fs

/-- The output file name of one daily window of the forecast-physics script
(lines 211-218): an `if/elif` chain on `var_list[0]` with no `else`.  For an
unrecognized first element no branch assigns `out_fn`, and the first loop
iteration raises `NameError` (`none` here); an empty `var_list` raises
`IndexError` (`none` as well). -/
def out_fn_daily (vl : List String) (dt : DateTime) : Option String :=
  match vl with
  | [] => none
  | v :: _ =>
    if v = "so" then some ("glorys_so_" ++ fmt_label_daily dt ++ ".nc")
    else if v = "thetao" then some ("glorys_thetao_" ++ fmt_label_daily dt ++ ".nc")
    else if v = "uo" ∨ v = "vo" then some ("glorys_uovo_" ++ fmt_label_daily dt ++ ".nc")
    else if v = "zos" then some ("glorys_zos_" ++ fmt_label_daily dt ++ ".nc")
    else none

/-- Whether the configured variable list has a recognized first element, so
that every iteration of the daily loop binds `out_fn`. -/
def var_recognized (vl : List String) : Bool :=
  match vl with
  | [] => false
  | v :: _ => v == "so" || v == "thetao" || v == "uo" || v == "vo" || v == "zos"

/-- The output file name with a default for the unreachable `none` case;
equal to the bound `out_fn` whenever `var_recognized vl = true`. -/
def out_fn_or (vl : List String) (dt : DateTime) : String :=
  (out_fn_daily vl dt).getD ""

/-- The three per-window updates of the shared template record
(physics-daily lines 223-225): `out_name`, `date_min` and `date_max` are
overwritten; every other key is untouched. -/
def window_opts {F : Type} (d : DataRequestOptions F) (vl : List String)
    (dt : DateTime) : DataRequestOptions F :=
  { d with
    out_name := out_fn_or vl dt
    date_min := dstr_min_daily dt
    date_max := dstr_max_daily dt }

/-- State of one run of the daily main loop: the shared request record, the
filesystem, the chunks written to `log.txt` so far (in `f.write` order), and
— as ghost instrumentation — the record passed to each `get_extraction`
call. -/
structure RunState (F : Type) where
  opts : DataRequestOptions F
  fs : FS
  log : List String
  calls : List (DataRequestOptions F)

/-- The chunk written when the log is opened (line 206):
`f.write('\n\n** Working on GLORYS extraction **')`. -/
def logHeader : String := "\n\n** Working on GLORYS extraction **"

/-- Initial state of a run: template record, ambient filesystem, the header
already written, no client calls yet. -/
def initState {F : Type} (d0 : DataRequestOptions F) (fs0 : FS) : RunState F :=
  { opts := d0, fs := fs0, log := [logHeader], calls := [] }

/-- One iteration of the daily main loop (physics-daily lines 209-233) for
the window at `dt`: derive `out_fn` from `var_list[0]` and the date; set
`out_name`/`date_min`/`date_max` on the shared record; if
`os.path.isfile(out_fn)` — the bare name, resolved against the current
working directory `cwd` — and `force_overwrite`, delete that path; then, if
`os.path.isfile(out_fn)` is now false, call `get_extraction` and append
`'\n ' + label + ' ' + result` to the log.  On success the download client
writes the file `out_dir + out_name` (spec §6 client contract).  `none`
models the `NameError`/`IndexError` crash of an unrecognized variable
list. -/
def stepDaily {F : Type} (cwd : String) (vl : List String)
    (client : DataRequestOptions F → Nat → AttemptOutcome) (dt : DateTime)
    (st : RunState F) : Option (RunState F) :=
  match out_fn_daily vl dt with
  | none => none
  | some out_fn =>
    let opts1 : DataRequestOptions F :=
      { st.opts with
        out_name := out_fn
        date_min := dstr_min_daily dt
        date_max := dstr_max_daily dt }
    let p := resolve cwd out_fn
    let fs1 := overwrite_step cwd st.fs out_fn
    if fs1 p then
      some { opts := opts1, fs := fs1, log := st.log, calls := st.calls }
    else
      let r := get_extraction opts1 client
      some { opts := opts1
             fs := if r.2 = "success" then fsCreate fs1 (opts1.out_dir ++ out_fn) else fs1
             log := st.log ++ ["\n " ++ fmt_label_daily dt ++ " " ++ r.2]
             calls := st.calls ++ [opts1] }

/-- The daily main loop `for dt in dt_list` (physics-daily lines 209-233),
processed strictly in sequence. -/
def runDaily {F : Type} (cwd : String) (vl : List String)
    (client : DataRequestOptions F → Nat → AttemptOutcome) :
    List DateTime → RunState F → Option (RunState F)
  | [], st => some st
  | dt :: rest, st =>
    match stepDaily cwd vl client dt st with
    | none => none
    | some st1 => runDaily cwd vl client rest st1

/-- Split a character stream at `'\n'`, yielding the file's lines. -/
def splitLinesAux : List Char → List Char → List String
  | [], acc => [String.mk acc.reverse]
  | c :: cs, acc =>
    if c = '\n' then String.mk acc.reverse :: splitLinesAux cs []
    else splitLinesAux cs (c :: acc)

/-- The lines of the log file whose written chunks are `chunks`. -/
def logLines (chunks : List String) : List String :=
  splitLinesAux (String.join chunks).data []

/-- Agreement of two request records on every field other than `date_min`,
`date_max` and `out_name` (the frame of the per-window mutation). -/
def frameAgrees {F : Type} (a b : DataRequestOptions F) : Prop :=
  a.service_id = b.service_id ∧ a.product_id = b.product_id ∧
    a.longitude_min = b.longitude_min ∧ a.longitude_max = b.longitude_max ∧
    a.latitude_min = b.latitude_min ∧ a.latitude_max = b.latitude_max ∧
    a.depth_min = b.depth_min ∧ a.depth_max = b.depth_max ∧
    a.«variable» = b.«variable» ∧ a.motu = b.motu ∧ a.out_dir = b.out_dir ∧
    a.auth_mode = b.auth_mode ∧ a.user = b.user ∧ a.pwd = b.pwd

instance {F : Type} [DecidableEq F] (a b : DataRequestOptions F) :
    Decidable (frameAgrees a b) := by
  unfold frameAgrees; infer_instance

/-- The log chunk the main loop appends for the window at `dt`
(physics-daily line 233): `'\n ' + strftime('%Y_%m_%d') + ' ' + result`,
where `result` is what `get_extraction` returns for the record populated
with this window's dates and output name. -/
def logEntry {F : Type} (vl : List String)
    (client : DataRequestOptions F → Nat → AttemptOutcome)
    (d : DataRequestOptions F) (dt : DateTime) : String :=
  "\n " ++ fmt_label_daily dt ++ " " ++ (get_extraction (window_opts d vl dt) client).2

/-- A concrete request record over the trivial carrier, used to evaluate
theorems at explicit inputs. -/
def exOpts : DataRequestOptions Unit :=
  data_request_options_dict_manual () () () () () () ["thetao"]
    "/mnt/c/data/glorys/forecast_daily/" "user1" "pw1"

/-- A download client that raises a non-timeout exception on every attempt. -/
def clientAllFail : DataRequestOptions Unit → Nat → AttemptOutcome :=
  fun _ _ => AttemptOutcome.otherRaised

/-- A download client that times out twice and then completes on the third
attempt. -/
def clientOkAt3 : DataRequestOptions Unit → Nat → AttemptOutcome :=
  fun _ c => if c = 3 then AttemptOutcome.ok else AttemptOutcome.timeoutRaised

/-- A download client whose behavior depends on the requested window: the
window starting 2022-01-01 succeeds at once, every other request raises.
Used to realize the spec scenario "one forced-success then one forced-fail". -/
def clientByDate : DataRequestOptions Unit → Nat → AttemptOutcome :=
  fun d _ =>
    if d.date_min = "2022-01-01 00:00:00" then AttemptOutcome.ok
    else AttemptOutcome.otherRaised

/-- The empty filesystem. -/
def fsEmpty : FS := fun _ => false

/-- A filesystem holding exactly one file: this run's first output name
inside the configured output directory (and nothing in the working
directory). -/
def fsOnlyOutDir : FS :=
  fun p => p == "/mnt/c/data/glorys/forecast_daily/glorys_thetao_2021_01_01.nc"

/-- Every month has at least 28 days. -/
lemma monthLen_ge_28 (y m : Nat) : 28 ≤ monthLen y m := by
  unfold monthLen
  split_ifs <;> omega

/-- Every month has at most 31 days. -/
lemma monthLen_le_31 (y m : Nat) : monthLen y m ≤ 31 := by
  unfold monthLen
  split_ifs <;> omega

lemma daysBeforeMonth_succ (y m : Nat) (hm : 1 ≤ m) :
    daysBeforeMonth y (m + 1) = daysBeforeMonth y m + monthLen y m := by
  match m, hm with
  | k + 1, _ => rfl

/-- The months of year `y` total 365 days, or 366 in a leap year. -/
lemma daysBeforeMonth_13 (y : Nat) :
    daysBeforeMonth y 13 = if isLeap y then 366 else 365 := by
  simp only [daysBeforeMonth, monthLen]
  norm_num
  split_ifs <;> omega

/-- Unfolding of the leap-year test into arithmetic conditions. -/
lemma isLeap_iff (y : Nat) :
    isLeap y = true ↔ ((y % 4 = 0 ∧ ¬ y % 100 = 0) ∨ y % 400 = 0) := by
  unfold isLeap
  simp only [Bool.or_eq_true, Bool.and_eq_true, beq_iff_eq, bne_iff_ne]

/-- One more elapsed year adds the length of year `y` to the day count. -/
lemma daysBeforeYear_succ (y : Nat) (hy : 1 ≤ y) :
    daysBeforeYear (y + 1) = daysBeforeYear y + (if isLeap y then 366 else 365) := by
  rcases Nat.exists_eq_add_of_le hy with ⟨z, rfl⟩
  unfold daysBeforeYear
  simp only [Nat.add_sub_cancel_left, Nat.add_sub_cancel]
  by_cases h : isLeap (1 + z) = true
  · rw [if_pos h]
    rw [isLeap_iff] at h
    rcases h with ⟨h4, h100⟩ | h400
    · omega
    · omega
  · rw [if_neg h]
    rw [isLeap_iff] at h
    push_neg at h
    omega

/-- The civil successor day advances the CPython day ordinal by one. -/
lemma nextDay_toOrdinal (d : DateTime) (h : ValidDT d) :
    toOrdinal (nextDay d) = toOrdinal d + 1 := by
  obtain ⟨hy, hm1, hm12, hd1, hdle, _, _, _⟩ := h
  unfold nextDay
  split_ifs with h1 h2
  · unfold toOrdinal
    dsimp only
    omega
  · have hstep := daysBeforeMonth_succ d.year d.month hm1
    unfold toOrdinal
    dsimp only
    omega
  · have hm : d.month = 12 := by omega
    have h13 := daysBeforeMonth_13 d.year
    have hstep : daysBeforeMonth d.year 13 = daysBeforeMonth d.year 12 + monthLen d.year 12 :=
      daysBeforeMonth_succ d.year 12 (by omega)
    have hyy := daysBeforeYear_succ d.year hy
    have hz : daysBeforeMonth (d.year + 1) 1 = 0 := rfl
    unfold toOrdinal
    dsimp only
    rw [hm] at hdle h1 ⊢
    split_ifs at h13 hyy <;> omega

/-- The civil successor day keeps the time of day. -/
lemma nextDay_time (d : DateTime) :
    (nextDay d).hour = d.hour ∧ (nextDay d).minute = d.minute ∧
      (nextDay d).second = d.second := by
  unfold nextDay
  split_ifs <;> exact ⟨rfl, rfl, rfl⟩

/-- The civil successor of a representable datetime is representable. -/
lemma nextDay_valid (d : DateTime) (h : ValidDT d) : ValidDT (nextDay d) := by
  have h28a := monthLen_ge_28 d.year (d.month + 1)
  have h28b := monthLen_ge_28 (d.year + 1) 1
  obtain ⟨hy, hm1, hm12, hd1, hdle, hh, hmin, hs⟩ := h
  unfold nextDay ValidDT
  split_ifs with h1 h2 <;> dsimp only <;>
    exact ⟨by omega, by omega, by omega, by omega, by omega, hh, hmin, hs⟩

lemma addDays_succ (d : DateTime) (n : Nat) :
    addDays d (n + 1) = nextDay (addDays d n) := by
  induction n generalizing d with
  | zero => rfl
  | succ n ih =>
    show addDays (nextDay d) (n + 1) = nextDay (addDays (nextDay d) n)
    exact ih (nextDay d)

lemma addDays_valid (d : DateTime) (h : ValidDT d) (n : Nat) :
    ValidDT (addDays d n) := by
  induction n with
  | zero => exact h
  | succ n ih => rw [addDays_succ]; exact nextDay_valid _ ih

/-- Adding `n` civil days advances the day ordinal by `n`. -/
lemma addDays_toOrdinal (d : DateTime) (h : ValidDT d) (n : Nat) :
    toOrdinal (addDays d n) = toOrdinal d + n := by
  induction n with
  | zero => rfl
  | succ n ih =>
    rw [addDays_succ, nextDay_toOrdinal _ (addDays_valid d h n)]
    omega

lemma toSeconds_dayStart (d : DateTime) :
    toSeconds (dayStart d) = toOrdinal d * 86400 := by
  unfold toSeconds toOrdinal dayStart
  dsimp only
  omega

lemma toSeconds_dayEnd (d : DateTime) :
    toSeconds (dayEnd d) = toOrdinal d * 86400 + 86399 := by
  unfold toSeconds toOrdinal dayEnd
  dsimp only

/-- The daily `date_min` string is the rendering of midnight of `dt`'s day. -/
lemma fmtDT_dayStart (dt : DateTime) : dstr_min_daily dt = fmtDT (dayStart dt) := by
  unfold dstr_min_daily fmtDT fmtYMD fmtTime dayStart
  dsimp only
  simp only [String.append_assoc]
  rfl

/-- The daily `date_max` string is the rendering of 23:59:59 of `dt`'s day. -/
lemma fmtDT_dayEnd (dt : DateTime) : dstr_max_daily dt = fmtDT (dayEnd dt) := by
  unfold dstr_max_daily fmtDT fmtYMD fmtTime dayEnd
  dsimp only
  simp only [String.append_assoc]
  rfl

/-- The monthly `date_min` string of a first-of-month datetime renders the
first day of that month at midnight. -/
lemma fmtDT_monthStart (y m : Nat) :
    dstr_min_monthly (monthStart y m) = fmtDT (monthStart y m) := by
  unfold dstr_min_monthly fmtDT fmtYMD fmtTime monthStart
  dsimp only
  simp only [String.append_assoc]
  rfl

/-- The monthly `date_max` string of a first-of-month datetime renders the
last day of that month at 23:59:59. -/
lemma fmtDT_monthEnd (y m : Nat) :
    dstr_max_monthly (monthStart y m) = fmtDT (monthEnd y m) := by
  have hp : pad2 (monthLen y m) = toString (monthLen y m) := by
    have h28 := monthLen_ge_28 y m
    unfold pad2
    rw [if_neg]
    omega
  unfold dstr_max_monthly dd_str fmtDT fmtYMD fmtTime monthStart monthEnd
  dsimp only
  rw [hp]
  simp only [String.append_assoc]
  rfl

/-- Once `got_file` is `True` the loop guard fails and the loop exits at
once, making no further client calls. -/
lemma extraction_loop_gotFile {F : Type} (d : DataRequestOptions F)
    (client : DataRequestOptions F → Nat → AttemptOutcome) (fuel counter calls : Nat) :
    extraction_loop d client fuel counter true calls = (calls, true) := by
  cases fuel with
  | zero => rfl
  | succ fuel => simp [extraction_loop]

/-- If the client never completes, the loop runs its guard down: from
`counter` with matching fuel it makes exactly `fuel` further attempts and
ends with `got_file` still `False`. -/
lemma extraction_loop_all_fail {F : Type} (d : DataRequestOptions F)
    (client : DataRequestOptions F → Nat → AttemptOutcome)
    (h : ∀ c, client d c ≠ AttemptOutcome.ok) :
    ∀ fuel counter calls, counter + fuel = 11 →
      extraction_loop d client fuel counter false calls = (calls + fuel, false) := by
  intro fuel
  induction fuel with
  | zero =>
    intro counter calls hc
    simp [extraction_loop]
  | succ fuel ih =>
    intro counter calls hc
    simp only [extraction_loop]
    rw [if_pos (And.intro (by omega) trivial)]
    cases hcl : client d counter with
    | ok => exact absurd hcl (h counter)
    | timeoutRaised =>
      rw [ih (counter + 1) (calls + 1) (by omega)]
      rw [show calls + 1 + fuel = calls + (fuel + 1) from by omega]
    | otherRaised =>
      rw [ih (counter + 1) (calls + 1) (by omega)]
      rw [show calls + 1 + fuel = calls + (fuel + 1) from by omega]

/-- If the client first completes at counter value `k ≤ 10`, the loop makes
the attempts `counter, …, k` and exits with `got_file = True`. -/
lemma extraction_loop_first_ok {F : Type} (d : DataRequestOptions F)
    (client : DataRequestOptions F → Nat → AttemptOutcome) (k : Nat)
    (hk10 : k ≤ 10) (hok : client d k = AttemptOutcome.ok) :
    ∀ fuel counter calls, counter + fuel = 11 → counter ≤ k →
      (∀ j, counter ≤ j → j < k → client d j ≠ AttemptOutcome.ok) →
      extraction_loop d client fuel counter false calls
        = (calls + (k - counter) + 1, true) := by
  intro fuel
  induction fuel with
  | zero =>
    intro counter calls hc hck hbef
    exfalso
    omega
  | succ fuel ih =>
    intro counter calls hc hck hbef
    simp only [extraction_loop]
    rw [if_pos (And.intro (by omega) trivial)]
    by_cases hek : counter = k
    · subst hek
      rw [hok]
      rw [extraction_loop_gotFile]
      rw [show calls + (counter - counter) + 1 = calls + 1 from by omega]
    · have hne := hbef counter (le_refl counter) (by omega)
      cases hcl : client d counter with
      | ok => exact absurd hcl hne
      | timeoutRaised =>
        rw [ih (counter + 1) (calls + 1) (by omega) (by omega)
          (fun j hj1 hj2 => hbef j (by omega) hj2)]
        rw [show calls + 1 + (k - (counter + 1)) + 1 = calls + (k - counter) + 1 from by omega]
      | otherRaised =>
        rw [ih (counter + 1) (calls + 1) (by omega) (by omega)
          (fun j hj1 hj2 => hbef j (by omega) hj2)]
        rw [show calls + 1 + (k - (counter + 1)) + 1 = calls + (k - counter) + 1 from by omega]

/-- The loop makes at most `fuel` further client calls. -/
lemma extraction_loop_calls_le {F : Type} (d : DataRequestOptions F)
    (client : DataRequestOptions F → Nat → AttemptOutcome) :
    ∀ fuel counter got calls,
      (extraction_loop d client fuel counter got calls).1 ≤ calls + fuel := by
  intro fuel
  induction fuel with
  | zero =>
    intro counter got calls
    simp [extraction_loop]
  | succ fuel ih =>
    intro counter got calls
    simp only [extraction_loop]
    split_ifs with hg
    · cases hcl : client d counter <;>
        exact le_trans (ih (counter + 1) _ (calls + 1)) (by omega)
    · omega

lemma dt_list_daily_length (base : DateTime) (N : Nat) :
    (dt_list_daily base N).length = N := by
  simp [dt_list_daily]

lemma dt_list_daily_getElem (base : DateTime) (N i : Nat) (h : i < N) :
    (dt_list_daily base N)[i]? = some (addDays base i) := by
  simp [dt_list_daily, List.getElem?_map, List.getElem?_range, h]

lemma dt_list_monthly_length (base : DateTime) (N : Nat) :
    (dt_list_monthly base N).length = N := by
  simp [dt_list_monthly]

lemma dt_list_monthly_getElem (base : DateTime) (N i : Nat) (h : i < N) :
    (dt_list_monthly base N)[i]? = some (addMonths base i) := by
  simp [dt_list_monthly, List.getElem?_map, List.getElem?_range, h]

/-- Starting from the first of a month at midnight, adding `i` relative
months lands exactly on the first of the month `i` months later, the month
index wrapping into the year. -/
lemma addMonths_day1 (base : DateTime) (hday : base.day = 1)
    (hh : base.hour = 0) (hmin : base.minute = 0) (hsec : base.second = 0) (i : Nat) :
    addMonths base i
      = monthStart (base.year + (base.month - 1 + i) / 12)
          ((base.month - 1 + i) % 12 + 1) := by
  have h28 := monthLen_ge_28 (base.year + (base.month - 1 + i) / 12)
    ((base.month - 1 + i) % 12 + 1)
  unfold addMonths monthStart
  dsimp only
  rw [hday, hh, hmin, hsec]
  have hmin1 : min 1 (monthLen (base.year + (base.month - 1 + i) / 12)
      ((base.month - 1 + i) % 12 + 1)) = 1 := by omega
  rw [hmin1]

/-- A recognized variable list always yields a bound `out_fn`. -/
lemma out_fn_daily_isSome (vl : List String) (dt : DateTime)
    (h : var_recognized vl = true) :
    out_fn_daily vl dt = some (out_fn_or vl dt) := by
  cases vl with
  | nil => simp [var_recognized] at h
  | cons v t =>
    simp only [var_recognized, Bool.or_eq_true, beq_iff_eq] at h
    unfold out_fn_or
    rcases h with (((h | h) | h) | h) | h <;> subst h <;> simp [out_fn_daily]

/-- Re-populating the three per-window keys overwrites the previous window's
values completely, so only the latest window's values remain. -/
lemma window_opts_absorb {F : Type} (d : DataRequestOptions F) (vl : List String)
    (a : DateTime) :
    window_opts (window_opts d vl a) vl = window_opts d vl := rfl

lemma logEntry_window_opts {F : Type} (vl : List String)
    (client : DataRequestOptions F → Nat → AttemptOutcome)
    (d : DataRequestOptions F) (a : DateTime) :
    logEntry vl client (window_opts d vl a) = logEntry vl client d := rfl

lemma frameAgrees_refl {F : Type} (a : DataRequestOptions F) : frameAgrees a a :=
  ⟨rfl, rfl, rfl, rfl, rfl, rfl, rfl, rfl, rfl, rfl, rfl, rfl, rfl, rfl⟩

/-- The per-window update leaves the whole frame untouched. -/
lemma frameAgrees_window_opts {F : Type} (d : DataRequestOptions F)
    (vl : List String) (dt : DateTime) (b : DataRequestOptions F)
    (h : frameAgrees (window_opts d vl dt) b) : frameAgrees d b := h

/-- One loop iteration under a recognized variable list: the record gets this
window's dates and output name, exactly one log chunk is appended (the
delete-then-test pair guarantees the guarded write always fires), and the
client is invoked on exactly this populated record. -/
lemma stepDaily_eq {F : Type} (cwd : String) (vl : List String)
    (client : DataRequestOptions F → Nat → AttemptOutcome) (dt : DateTime)
    (st : RunState F) (h : var_recognized vl = true) :
    ∃ fs1 : FS, stepDaily cwd vl client dt st =
      some { opts := window_opts st.opts vl dt
             fs := fs1
             log := st.log ++ [logEntry vl client st.opts dt]
             calls := st.calls ++ [window_opts st.opts vl dt] } := by
  have hfs : overwrite_step cwd st.fs (out_fn_or vl dt)
      (resolve cwd (out_fn_or vl dt)) = false := by
    unfold overwrite_step
    by_cases hp : st.fs (resolve cwd (out_fn_or vl dt)) = true
    · simp [hp, force_overwrite, fsRemove]
    · simp only [Bool.not_eq_true] at hp
      simp [hp]
  refine ⟨if (get_extraction (window_opts st.opts vl dt) client).2 = "success"
      then fsCreate (overwrite_step cwd st.fs (out_fn_or vl dt))
        ((window_opts st.opts vl dt).out_dir ++ out_fn_or vl dt)
      else overwrite_step cwd st.fs (out_fn_or vl dt), ?_⟩
  unfold stepDaily
  rw [out_fn_daily_isSome vl dt h]
  dsimp only
  rw [hfs]
  rfl

/-- Characterization of a whole run under a recognized variable list: the
run never crashes, appends exactly one log chunk per window in window order
(each chunk determined by the window's date and the client's behavior on the
populated record), passes to the client exactly one populated record per
window, and leaves the whole frame of the shared record intact. -/
lemma runDaily_char {F : Type} (cwd : String) (vl : List String)
    (client : DataRequestOptions F → Nat → AttemptOutcome)
    (h : var_recognized vl = true) :
    ∀ (dts : List DateTime) (st : RunState F),
      ∃ st1, runDaily cwd vl client dts st = some st1 ∧
        st1.log = st.log ++ dts.map (logEntry vl client st.opts) ∧
        st1.calls = st.calls ++ dts.map (window_opts st.opts vl) ∧
        frameAgrees st.opts st1.opts := by
  intro dts
  induction dts with
  | nil =>
    intro st
    exact ⟨st, rfl, by simp, by simp, frameAgrees_refl st.opts⟩
  | cons dt rest ih =>
    intro st
    obtain ⟨fs1, hstep⟩ := stepDaily_eq cwd vl client dt st h
    obtain ⟨st1, hrun, hlog, hcalls, hframe⟩ :=
      ih { opts := window_opts st.opts vl dt
           fs := fs1
           log := st.log ++ [logEntry vl client st.opts dt]
           calls := st.calls ++ [window_opts st.opts vl dt] }
    refine ⟨st1, ?_, ?_, ?_, ?_⟩
    · unfold runDaily
      rw [hstep]
      exact hrun
    · rw [hlog]
      dsimp only
      rw [logEntry_window_opts]
      simp
    · rw [hcalls]
      dsimp only
      rw [window_opts_absorb]
      simp
    · exact frameAgrees_window_opts st.opts vl dt st1.opts hframe

/-- If every attempt raises, `get_extraction` makes exactly 10 attempts and
returns the string `'fail'`. -/
lemma get_extraction_all_fail {F : Type} (d : DataRequestOptions F)
    (client : DataRequestOptions F → Nat → AttemptOutcome)
    (h : ∀ c, client d c ≠ AttemptOutcome.ok) :
    get_extraction d client = (10, "fail") := by
  unfold get_extraction
  rw [extraction_loop_all_fail d client h 10 1 0 (by omega)]
  rfl

/-- If the first completed attempt is attempt `k ≤ 10`, `get_extraction`
makes exactly `k` attempts and returns the string `'success'`. -/
lemma get_extraction_first_ok {F : Type} (d : DataRequestOptions F)
    (client : DataRequestOptions F → Nat → AttemptOutcome) (k : Nat)
    (hk1 : 1 ≤ k) (hk10 : k ≤ 10) (hok : client d k = AttemptOutcome.ok)
    (hbef : ∀ j, 1 ≤ j → j < k → client d j ≠ AttemptOutcome.ok) :
    get_extraction d client = (k, "success") := by
  unfold get_extraction
  rw [extraction_loop_first_ok d client k hk10 hok 10 1 0 (by omega) hk1 hbef]
  rw [show 0 + (k - 1) + 1 = k from by omega]
  rfl

/-- Whatever the client does, `get_extraction` returns one of the two
strings. -/
lemma get_extraction_result_cases {F : Type} (d : DataRequestOptions F)
    (client : DataRequestOptions F → Nat → AttemptOutcome) :
    (get_extraction d client).2 = "success" ∨ (get_extraction d client).2 = "fail" := by
  unfold get_extraction
  dsimp only
  by_cases hb : (extraction_loop d client 10 1 false 0).2 = true
  · left
    rw [if_pos hb]
  · right
    rw [if_neg hb]

/-- Whatever the client does, `get_extraction` makes at most 10 attempts. -/
lemma get_extraction_attempts_le {F : Type} (d : DataRequestOptions F)
    (client : DataRequestOptions F → Nat → AttemptOutcome) :
    (get_extraction d client).1 ≤ 10 := by
  have h := extraction_loop_calls_le d client 10 1 false 0
  unfold get_extraction
  dsimp only
  omega

/-- Claim C1: for every request-parameter record and every download-client
behavior, the bounded-retry extraction makes at most 10 attempts: a client
that fails on every attempt yields exactly 10 attempts and outcome `fail`; a
client that first completes on attempt `k` with `1 ≤ k ≤ 10` yields exactly
`k` attempts and outcome `success`, with no further attempts after the first
success (the attempt count of `get_extraction` is exactly `k`). -/
theorem get_extraction_retry_bound {F : Type} (d : DataRequestOptions F)
    (client : DataRequestOptions F → Nat → AttemptOutcome) :
    ((∀ c, client d c ≠ AttemptOutcome.ok) → get_extraction d client = (10, "fail")) ∧
    (∀ k, 1 ≤ k → k ≤ 10 → client d k = AttemptOutcome.ok →
      (∀ j, 1 ≤ j → j < k → client d j ≠ AttemptOutcome.ok) →
      get_extraction d client = (k, "success")) :=
  ⟨fun h => get_extraction_all_fail d client h,
   fun k hk1 hk10 hok hbef => get_extraction_first_ok d client k hk1 hk10 hok hbef⟩

/-- Witness for C1: with the concrete record `exOpts`, the always-raising
client makes 10 attempts and fails, and the client that first completes on
attempt 3 makes exactly 3 attempts and succeeds. -/
theorem get_extraction_retry_bound_witness :
    get_extraction exOpts clientAllFail = (10, "fail") ∧
    get_extraction exOpts clientOkAt3 = (3, "success") :=
  ⟨(get_extraction_retry_bound exOpts clientAllFail).1
      (fun c hc => AttemptOutcome.noConfusion hc),
   (get_extraction_retry_bound exOpts clientOkAt3).2 3 (by decide) (by decide)
      (by decide)
      (fun j hj1 hj2 => by
        have hj : j = 1 ∨ j = 2 := by omega
        rcases hj with hj | hj <;> subst hj <;> decide)⟩

/-- Claim C9: for every request record and client behavior the retry loop
terminates with at most 10 attempts (the embedded loop consumes one unit of
fuel per iteration, mirroring the strictly increasing counter bounded by the
guard `counter <= 10`), and the function's result is always exactly one of
the two strings `success` and `fail`. -/
theorem get_extraction_terminates_bounded {F : Type} (d : DataRequestOptions F)
    (client : DataRequestOptions F → Nat → AttemptOutcome) :
    (get_extraction d client).1 ≤ 10 ∧
    ((get_extraction d client).2 = "success" ∨ (get_extraction d client).2 = "fail") :=
  ⟨get_extraction_attempts_le d client, get_extraction_result_cases d client⟩

/-- Claim C6: in the forecast-physics variant the product identifier is
determined by the first element of the variable list through the fixed
five-entry lookup (`so` → salinity, `thetao` → temperature, `uo`/`vo` →
currents, `zos` → sea-surface height); any other first element selects no
product — the `if/elif` chain has no `else`, so the record is left exactly
as it was (its `product_id` keeps the template placeholder). -/
theorem product_id_lookup (F : Type) (d : DataRequestOptions F) :
    ((select_product "so" d).product_id = "cmems_mod_glo_phy-so_anfc_0.083deg_P1D-m" ∧
     (select_product "thetao" d).product_id = "cmems_mod_glo_phy-thetao_anfc_0.083deg_P1D-m" ∧
     (select_product "uo" d).product_id = "cmems_mod_glo_phy-cur_anfc_0.083deg_P1D-m" ∧
     (select_product "vo" d).product_id = "cmems_mod_glo_phy-cur_anfc_0.083deg_P1D-m" ∧
     (select_product "zos" d).product_id = "cmems_mod_glo_phy_anfc_0.083deg_P1D-m") ∧
    (∀ v0 : String, v0 ≠ "so" → v0 ≠ "thetao" → v0 ≠ "uo" → v0 ≠ "vo" → v0 ≠ "zos" →
      select_product v0 d = d) := by
  constructor
  · refine ⟨?_, ?_, ?_, ?_, ?_⟩ <;> simp [select_product]
  · intro v0 h1 h2 h3 h4 h5
    simp [select_product, h1, h2, h3, h4, h5]

/-- Witness for C6: the unrecognized first element `chl` leaves the concrete
template record unchanged, so no product is selected and `product_id` stays
the placeholder. -/
theorem product_id_lookup_witness :
    select_product "chl" exOpts = exOpts ∧ exOpts.product_id = " " :=
  ⟨(product_id_lookup Unit exOpts).2 "chl" (by decide) (by decide) (by decide)
      (by decide) (by decide),
   rfl⟩

/-- Claim C10 counterexample: the claim quantifies over every key name `k`,
but `__getattr__` only runs when normal attribute lookup fails, and normal
lookup succeeds for two kinds of names even when they are keys of `d`:
for `k = "attrs"` it finds the instance attribute planted by `__init__`
and returns the wrapped dict itself, not `d["attrs"]`; and for a
class-hierarchy name such as `k = "__class__"` it returns the class
attribute (here the class object), not `d["__class__"]`. -/
theorem motuoptions_attrs_read_counterexample :
    MotuOptions.readAttr pyClassAttrsSample
        (MotuOptions.mk (Dict.insert (fun _ => none) "attrs" (37 : Nat))) "attrs"
      ≠ PyAttr.val ((Dict.insert (fun _ => none) "attrs" (37 : Nat)) "attrs") ∧
    MotuOptions.readAttr pyClassAttrsSample
        (MotuOptions.mk (Dict.insert (fun _ => none) "__class__" (5 : Nat))) "__class__"
      ≠ PyAttr.val ((Dict.insert (fun _ => none) "__class__" (5 : Nat)) "__class__") := by
  constructor
  · unfold MotuOptions.readAttr
    rw [if_pos rfl]
    intro hcon
    exact PyAttr.noConfusion hcon
  · unfold MotuOptions.readAttr
    rw [if_neg (by decide), if_pos (by decide)]
    intro hcon
    exact PyAttr.noConfusion hcon

/-- Claim C10 as amended: for every key `k` that normal attribute lookup
does not resolve — `k` other than the instance attribute `attrs` and other
than the attributes provided by the class hierarchy (`__init__`,
`__setattr__`, `__getattr__` from the class itself, plus everything
inherited from `object`, e.g. `__class__`, `__dict__`, `__eq__`, …) —
reading attribute `k` on `MotuOptions(d)` goes through the `__getattr__`
fallback and returns `d[k]` when the key is present and Python `None`
(never a `KeyError`/`AttributeError`) when it is absent.  Reading `attrs`
returns the wrapped dict itself; reading a class-provided name returns
that class attribute, never `d[k]`; and setting any attribute `k = v` —
class-provided names included, since the overridden `__setattr__` receives
every assignment — stores `v` under key `k` in the underlying dict. -/
theorem motuoptions_adapter_behavior :
    (∀ (α : Type) (classAttrs : String → Bool) (d : Dict α) (k : String),
        k ≠ "attrs" → classAttrs k = false →
        MotuOptions.readAttr classAttrs (MotuOptions.mk d) k = PyAttr.val (d k)) ∧
    (∀ (α : Type) (classAttrs : String → Bool) (d : Dict α),
        MotuOptions.readAttr classAttrs (MotuOptions.mk d) "attrs" = PyAttr.dictRef d) ∧
    (∀ (α : Type) (classAttrs : String → Bool) (d : Dict α) (k : String),
        k ≠ "attrs" → classAttrs k = true →
        MotuOptions.readAttr classAttrs (MotuOptions.mk d) k = PyAttr.classAttr) ∧
    (∀ (α : Type) (d : Dict α) (k : String) (v : α),
        ((MotuOptions.mk d).writeAttr k v).attrs = Dict.insert d k v) ∧
    (∀ (α : Type) (d : Dict α) (k : String) (v : α),
        ((MotuOptions.mk d).writeAttr k v).attrs k = some v) := by
  refine ⟨?_, ?_, ?_, ?_, ?_⟩
  · intro α classAttrs d k hk hc
    unfold MotuOptions.readAttr
    rw [if_neg hk, hc]
    rfl
  · intro α classAttrs d
    unfold MotuOptions.readAttr
    rw [if_pos rfl]
  · intro α classAttrs d k hk hc
    unfold MotuOptions.readAttr
    rw [if_neg hk, hc]
    rfl
  · intro α d k v
    rfl
  · intro α d k v
    unfold MotuOptions.writeAttr Dict.insert
    dsimp only
    rw [if_pos rfl]

/-- Witness for the amended C10: with the sample class-attribute set, the
key `user` is shadowed by nothing, so reading it on the empty dict yields
`None` without raising; reading the class-provided name `__init__` yields
the class attribute; and after setting `user := 5` the underlying dict
holds `5` at `user`. -/
theorem motuoptions_adapter_behavior_witness :
    MotuOptions.readAttr pyClassAttrsSample
        (MotuOptions.mk (fun _ => (none : Option Nat))) "user"
      = PyAttr.val none ∧
    MotuOptions.readAttr pyClassAttrsSample
        (MotuOptions.mk (fun _ => (none : Option Nat))) "__init__"
      = PyAttr.classAttr ∧
    ((MotuOptions.mk (fun _ => (none : Option Nat))).writeAttr "user" 5).attrs "user"
      = some 5 :=
  ⟨motuoptions_adapter_behavior.1 Nat pyClassAttrsSample (fun _ => none) "user"
      (by decide) (by decide),
   motuoptions_adapter_behavior.2.2.1 Nat pyClassAttrsSample (fun _ => none) "__init__"
      (by decide) (by decide),
   motuoptions_adapter_behavior.2.2.2.2 Nat (fun _ => none) "user" 5⟩

/-- Claim C2 (code bug): `force_overwrite` is indeed always `True`, but the
pre-download check tests and removes the bare `out_fn`, which the OS
resolves against the process's current working directory — not against
`OUTPUT_DIRECTORY`.  Run from `/home/user/` with the window's output file
already present in the output directory (and not in the CWD), the
check-and-delete step leaves the file in the output directory untouched. -/
theorem overwrite_check_misses_output_directory :
    force_overwrite = true ∧
    fsOnlyOutDir "/mnt/c/data/glorys/forecast_daily/glorys_thetao_2021_01_01.nc" = true ∧
    overwrite_step "/home/user/" fsOnlyOutDir "glorys_thetao_2021_01_01.nc"
        "/mnt/c/data/glorys/forecast_daily/glorys_thetao_2021_01_01.nc" = true := by
  refine ⟨rfl, by decide, ?_⟩
  decide

/-- Claim C3 counterexample: the scenario run of 2 windows (2022-01-01
forced success, 2022-01-02 forced fail).  The resulting log file does not
consist of two lines `<label> <outcome>`: it has five lines — two empty
lines and a banner from the header chunk written at log-open, and the two
window lines each carry a leading space. -/
theorem log_two_windows_counterexample :
    (runDaily "/home/user/" ["thetao"] clientByDate
        (dt_list_daily ⟨2022, 1, 1, 0, 0, 0⟩ 2) (initState exOpts fsEmpty)).map
        (fun st => logLines st.log)
      = some ["", "", "** Working on GLORYS extraction **",
              " 2022_01_01 success", " 2022_01_02 fail"] ∧
    (runDaily "/home/user/" ["thetao"] clientByDate
        (dt_list_daily ⟨2022, 1, 1, 0, 0, 0⟩ 2) (initState exOpts fsEmpty)).map
        (fun st => logLines st.log)
      ≠ some ["2022_01_01 success", "2022_01_02 fail"] := by
  constructor
  · decide
  · decide

/-- Claim C3 as amended: after a run over the window list the log consists
of the header chunk (two newlines and a banner, written when the log is
opened) followed by exactly one chunk per window, in window sequence order;
each window's chunk is a newline, one leading space, the window's date
label, a space, and its outcome token, which is always `success` or `fail`. -/
theorem run_log_one_chunk_per_window (F : Type) (cwd : String) (vl : List String)
    (client : DataRequestOptions F → Nat → AttemptOutcome)
    (base : DateTime) (N : Nat) (d0 : DataRequestOptions F) (fs0 : FS)
    (h : var_recognized vl = true) :
    (runDaily cwd vl client (dt_list_daily base N) (initState d0 fs0)).map RunState.log
        = some (logHeader :: (dt_list_daily base N).map (logEntry vl client d0)) ∧
    ∀ dt ∈ dt_list_daily base N,
      logEntry vl client d0 dt
          = "\n " ++ fmt_label_daily dt ++ " success" ∨
      logEntry vl client d0 dt
          = "\n " ++ fmt_label_daily dt ++ " fail" := by
  obtain ⟨st1, hrun, hlog, hcalls, hframe⟩ :=
    runDaily_char cwd vl client h (dt_list_daily base N) (initState d0 fs0)
  constructor
  · rw [hrun]
    simp only [Option.map_some']
    rw [hlog]
    simp [initState]
  · intro dt hdt
    rcases get_extraction_result_cases (window_opts d0 vl dt) client with hs | hf
    · left
      unfold logEntry
      rw [hs, String.append_assoc]
      rfl
    · right
      unfold logEntry
      rw [hf, String.append_assoc]
      rfl

/-- Witness for the amended C3: the scenario run writes exactly the header
chunk and the two expected window chunks, in order. -/
theorem run_log_one_chunk_per_window_witness :
    (runDaily "/home/user/" ["thetao"] clientByDate
        (dt_list_daily ⟨2022, 1, 1, 0, 0, 0⟩ 2) (initState exOpts fsEmpty)).map
        RunState.log
      = some [logHeader, "\n 2022_01_01 success", "\n 2022_01_02 fail"] :=
  ((run_log_one_chunk_per_window Unit "/home/user/" ["thetao"] clientByDate
      ⟨2022, 1, 1, 0, 0, 0⟩ 2 exOpts fsEmpty (by decide)).1).trans (by decide)

/-- Claim C7: every exception an attempt raises — `socket.timeout` or any
other — is absorbed inside `get_extraction`, whose result is always the
plain string `success` or `fail`; and at run level a window whose 10
attempts all raise gets the chunk `'\n <label> fail'` appended while the
loop still processes every window of the list (one chunk per window, in
order, whatever the client does). -/
theorem retry_absorbs_errors_and_run_continues (F : Type) (cwd : String)
    (vl : List String) (client : DataRequestOptions F → Nat → AttemptOutcome)
    (base : DateTime) (N : Nat) (d0 : DataRequestOptions F) (fs0 : FS)
    (h : var_recognized vl = true) :
    (∀ (d : DataRequestOptions F),
        (get_extraction d client).2 = "success" ∨ (get_extraction d client).2 = "fail") ∧
    (runDaily cwd vl client (dt_list_daily base N) (initState d0 fs0)).map RunState.log
        = some (logHeader :: (dt_list_daily base N).map (logEntry vl client d0)) ∧
    ∀ dt ∈ dt_list_daily base N,
      (∀ c, client (window_opts d0 vl dt) c ≠ AttemptOutcome.ok) →
      logEntry vl client d0 dt = "\n " ++ fmt_label_daily dt ++ " fail" := by
  obtain ⟨st1, hrun, hlog, hcalls, hframe⟩ :=
    runDaily_char cwd vl client h (dt_list_daily base N) (initState d0 fs0)
  refine ⟨fun d => get_extraction_result_cases d client, ?_, ?_⟩
  · rw [hrun]
    simp only [Option.map_some']
    rw [hlog]
    simp [initState]
  · intro dt hdt hfail
    unfold logEntry
    rw [get_extraction_all_fail (window_opts d0 vl dt) client hfail]
    rw [String.append_assoc]
    rfl

/-- Witness for C7: under the always-raising client, the 3-window run still
logs all three windows, each with outcome `fail`. -/
theorem retry_absorbs_errors_witness :
    (runDaily "/home/user/" ["thetao"] clientAllFail
        (dt_list_daily ⟨2021, 1, 1, 0, 0, 0⟩ 3) (initState exOpts fsEmpty)).map
        RunState.log
      = some [logHeader, "\n 2021_01_01 fail", "\n 2021_01_02 fail",
              "\n 2021_01_03 fail"] :=
  ((retry_absorbs_errors_and_run_continues Unit "/home/user/" ["thetao"]
      clientAllFail ⟨2021, 1, 1, 0, 0, 0⟩ 3 exOpts fsEmpty (by decide)).2.1).trans
    (by decide)

/-- Claim C8: across one run's window loop the shared request record passed
to the client is, for every window, exactly the pre-loop record with only
`date_min`, `date_max` and `out_name` repopulated; every other field —
service id, product id, the four bounding-box coordinates, the two depths,
the variable list, the motu URL, the output directory, the auth mode, the
username and the password — keeps the value it had before the loop began. -/
theorem request_record_frame (F : Type) (cwd : String) (vl : List String)
    (client : DataRequestOptions F → Nat → AttemptOutcome)
    (base : DateTime) (N : Nat) (d0 : DataRequestOptions F) (fs0 : FS)
    (h : var_recognized vl = true) :
    (runDaily cwd vl client (dt_list_daily base N) (initState d0 fs0)).map
        RunState.calls
      = some ((dt_list_daily base N).map (window_opts d0 vl)) ∧
    ∀ dt ∈ dt_list_daily base N, frameAgrees d0 (window_opts d0 vl dt) := by
  obtain ⟨st1, hrun, hlog, hcalls, hframe⟩ :=
    runDaily_char cwd vl client h (dt_list_daily base N) (initState d0 fs0)
  constructor
  · rw [hrun]
    simp only [Option.map_some']
    rw [hcalls]
    simp [initState]
  · intro dt hdt
    exact frameAgrees_refl d0

/-- Witness for C8: in the concrete 2-window run, the two records passed to
the client are the template with only the dates and output name filled in. -/
theorem request_record_frame_witness :
    (runDaily "/home/user/" ["thetao"] clientAllFail
        (dt_list_daily ⟨2021, 1, 1, 0, 0, 0⟩ 2) (initState exOpts fsEmpty)).map
        RunState.calls
      = some ((dt_list_daily ⟨2021, 1, 1, 0, 0, 0⟩ 2).map (window_opts exOpts ["thetao"])) :=
  (request_record_frame Unit "/home/user/" ["thetao"] clientAllFail
      ⟨2021, 1, 1, 0, 0, 0⟩ 2 exOpts fsEmpty (by decide)).1

/-- Claim C4: in monthly mode with a start timestamp on the first day of a
month at midnight, window `i` is the calendar month `i` months after the
start (month arithmetic carrying into the year): its element of `dt_list` is
the first of that month, `date_min` renders the first day of that month at
00:00:00, and `date_max` renders the last day of that same month — taken
from the calendar's day-count-per-month function, leap years included — at
23:59:59. -/
theorem monthly_window_bounds (base : DateTime) (N : Nat) (hv : ValidDT base)
    (hday : base.day = 1) (hh : base.hour = 0) (hmin : base.minute = 0)
    (hsec : base.second = 0) :
    (dt_list_monthly base N).length = N ∧
    ∀ i, i < N →
      (dt_list_monthly base N)[i]? = some (addMonths base i) ∧
      addMonths base i
          = monthStart (base.year + (base.month - 1 + i) / 12)
              ((base.month - 1 + i) % 12 + 1) ∧
      dstr_min_monthly (addMonths base i)
          = fmtDT (monthStart (base.year + (base.month - 1 + i) / 12)
              ((base.month - 1 + i) % 12 + 1)) ∧
      dstr_max_monthly (addMonths base i)
          = fmtDT (monthEnd (base.year + (base.month - 1 + i) / 12)
              ((base.month - 1 + i) % 12 + 1)) := by
  refine ⟨dt_list_monthly_length base N, ?_⟩
  intro i hi
  have hadd := addMonths_day1 base hday hh hmin hsec i
  refine ⟨dt_list_monthly_getElem base N i hi, hadd, ?_, ?_⟩
  · rw [hadd]
    exact fmtDT_monthStart _ _
  · rw [hadd]
    exact fmtDT_monthEnd _ _

/-- Witness for C4: the spec scenario `date_start = 2022-01-01`,
`number_of_months = 2` yields the windows
[2022-01-01 00:00:00, 2022-01-31 23:59:59] and
[2022-02-01 00:00:00, 2022-02-28 23:59:59] (2022 is not a leap year). -/
theorem monthly_window_bounds_witness :
    dstr_min_monthly (addMonths ⟨2022, 1, 1, 0, 0, 0⟩ 0) = "2022-01-01 00:00:00" ∧
    dstr_max_monthly (addMonths ⟨2022, 1, 1, 0, 0, 0⟩ 0) = "2022-01-31 23:59:59" ∧
    dstr_min_monthly (addMonths ⟨2022, 1, 1, 0, 0, 0⟩ 1) = "2022-02-01 00:00:00" ∧
    dstr_max_monthly (addMonths ⟨2022, 1, 1, 0, 0, 0⟩ 1) = "2022-02-28 23:59:59" :=
  have h := monthly_window_bounds ⟨2022, 1, 1, 0, 0, 0⟩ 2 (by decide) rfl rfl rfl rfl
  ⟨((h.2 0 (by decide)).2.2.1).trans (by decide),
   ((h.2 0 (by decide)).2.2.2).trans (by decide),
   ((h.2 1 (by decide)).2.2.1).trans (by decide),
   ((h.2 1 (by decide)).2.2.2).trans (by decide)⟩

/-- Claim C5: in daily mode the window list has exactly `N` elements, in
order; element `i` is `T0 + i` days, its `date_min` renders midnight of
that calendar day and its `date_max` renders 23:59:59 of the same day (so
every window's end is strictly after its start), and the starts of
consecutive windows are exactly 24 hours (86400 seconds) apart. -/
theorem daily_window_sequence (base : DateTime) (N : Nat) (hv : ValidDT base) :
    (dt_list_daily base N).length = N ∧
    (∀ i, i < N →
        (dt_list_daily base N)[i]? = some (addDays base i) ∧
        dstr_min_daily (addDays base i) = fmtDT (dayStart (addDays base i)) ∧
        dstr_max_daily (addDays base i) = fmtDT (dayEnd (addDays base i)) ∧
        toSeconds (dayStart (addDays base i)) < toSeconds (dayEnd (addDays base i))) ∧
    (∀ i, i + 1 < N →
        toSeconds (dayStart (addDays base (i + 1)))
          = toSeconds (dayStart (addDays base i)) + 86400) := by
  refine ⟨dt_list_daily_length base N, ?_, ?_⟩
  · intro i hi
    refine ⟨dt_list_daily_getElem base N i hi, fmtDT_dayStart _, fmtDT_dayEnd _, ?_⟩
    rw [toSeconds_dayStart, toSeconds_dayEnd]
    omega
  · intro i hi
    rw [toSeconds_dayStart, toSeconds_dayStart, addDays_succ,
      nextDay_toOrdinal _ (addDays_valid base hv i)]
    ring

/-- Witness for C5: the spec scenario `date_start = 2020-02-28`,
`number_of_days = 2` yields the days 2020-02-28 and 2020-02-29 — 2020 is a
leap year — with the expected window strings, and the two window starts are
exactly 86400 seconds apart. -/
theorem daily_window_sequence_witness :
    (dt_list_daily ⟨2020, 2, 28, 0, 0, 0⟩ 2).length = 2 ∧
    addDays ⟨2020, 2, 28, 0, 0, 0⟩ 1 = ⟨2020, 2, 29, 0, 0, 0⟩ ∧
    dstr_min_daily (addDays ⟨2020, 2, 28, 0, 0, 0⟩ 0) = "2020-02-28 00:00:00" ∧
    dstr_max_daily (addDays ⟨2020, 2, 28, 0, 0, 0⟩ 0) = "2020-02-28 23:59:59" ∧
    dstr_min_daily (addDays ⟨2020, 2, 28, 0, 0, 0⟩ 1) = "2020-02-29 00:00:00" ∧
    dstr_max_daily (addDays ⟨2020, 2, 28, 0, 0, 0⟩ 1) = "2020-02-29 23:59:59" ∧
    toSeconds (dayStart (addDays ⟨2020, 2, 28, 0, 0, 0⟩ 1))
      = toSeconds (dayStart (addDays ⟨2020, 2, 28, 0, 0, 0⟩ 0)) + 86400 :=
  have h := daily_window_sequence ⟨2020, 2, 28, 0, 0, 0⟩ 2 (by decide)
  ⟨h.1, by decide, by decide, by decide, by decide, by decide, h.2.2 0 (by decide)⟩
